import Mathlib

/-!
# Verification of the sari-sari store forecasting engine (`sw.js`)

Shallow embedding of the demand-forecasting core of the repository:
`SimpleARIMA`, `SimpleSARIMA` and `ForecastingEngine` from `src/sw.js`.

Modelling conventions:
* JavaScript numbers are idealised as `ℚ`.  Division by zero yields `0` in
  `ℚ`, where the source computes `0/0 = NaN` (sw.js line 96, zero-variance
  autocorrelation); the spec's §9 clarification treats that case as a zero
  coefficient.  This collapsed embedding is used for the structural claims,
  which do not depend on the distinction.  The claim about prediction
  nonnegativity does depend on it, so a NaN-faithful re-embedding of the
  base model (`Option ℚ`, with `none` for NaN) is given alongside and that
  claim is settled against it.
* `Math.sqrt` has no exact computable counterpart on `ℚ`, so every definition
  that needs it (`calculateStdDev`, the confidence-interval half-width) is
  parametrised by the square-root routine `sq : ℚ → ℚ`.  Theorems either hold
  for every such routine or assume only the properties of the real square
  root they actually use (non-negativity, monotonicity); concrete evaluations
  pick inputs on which the square root is exact (perfect squares), where any
  faithful routine, including `Math.sqrt`, agrees with `ratSqrt` below.
* A thrown JavaScript exception is modelled by `Except String`; the message of
  `SimpleARIMA.train`'s insufficient-data throw is kept verbatim, and plays
  the role of the specification's `InsufficientDataError`.
-/

namespace SW

/-- One round of first differencing: `diffed[j] = result[j] - result[j-1]`
(`SimpleARIMA.difference`, inner loop, sw.js lines 73-77). -/
def diffStep (data : List ℚ) : List ℚ :=
  List.zipWith (fun a b => b - a) data data.tail

/-- `SimpleARIMA.difference(data, order)` (sw.js lines 70-80): apply first
differencing `order` times. -/
def difference (data : List ℚ) : ℕ → List ℚ
  | 0 => data
  | n + 1 => difference (diffStep data) n

/-- Mean used by `autocorrelation` (sw.js line 84): `reduce(+)/length`.
For the empty list the source computes `0/0 = NaN`, collapsed to `0` here;
wherever that case can reach a result (the autocorrelation of an empty
series) the NaN-faithful `autocorrelationNaN` accounts for it, since the
autocorrelation denominator also vanishes there. -/
def listMean (data : List ℚ) : ℚ :=
  data.sum / (data.length : ℚ)

/-- `SimpleARIMA.autocorrelation(data, lag)` (sw.js lines 83-97).  The
numerator ranges over `i < data.length - lag` (an empty range when
`lag ≥ data.length`, as in JavaScript).  A zero denominator yields `0` here
(the spec §9 convention), whereas the source computes `0/0 = NaN` at
sw.js line 96; `autocorrelationNaN` below is the NaN-faithful variant, and
the claim whose truth depends on this case is settled against it. -/
def autocorrelation (data : List ℚ) (lag : ℕ) : ℚ :=
  let m := listMean data
  let numerator :=
    ((List.range (data.length - lag)).map fun i =>
      (data.getD i 0 - m) * (data.getD (i + lag) 0 - m)).sum
  let denominator := (data.map fun x => (x - m) ^ 2).sum
  numerator / denominator

/-- State of a `SimpleARIMA` instance (sw.js lines 60-67): orders `p d q`,
coefficient lists `phi`/`theta`, and the training series `data`. -/
structure SimpleARIMA where
  p : ℕ
  d : ℕ
  q : ℕ
  phi : List ℚ
  theta : List ℚ
  data : List ℚ
deriving DecidableEq

/-- `new SimpleARIMA(p, d, q)` (sw.js lines 61-67): empty coefficient lists,
no training data yet. -/
def SimpleARIMA.init (p d q : ℕ) : SimpleARIMA :=
  ⟨p, d, q, [], [], []⟩

/-- `SimpleARIMA.estimateParameters(data)` (sw.js lines 100-114): `phi[i-1]`
is the lag-`i` autocorrelation of the `d`-times differenced series for
`i = 1..p`; `theta[i-1] = 0.3 / i` for `i = 1..q`. -/
def SimpleARIMA.estimateParameters (m : SimpleARIMA) (data : List ℚ) : SimpleARIMA :=
  let diffed := difference data m.d
  { m with
    phi := (List.range m.p).map fun i => autocorrelation diffed (i + 1),
    theta := (List.range m.q).map fun (i : ℕ) => (3 / 10 : ℚ) / ((i : ℚ) + 1) }

/-- `SimpleARIMA.train(timeSeries)` (sw.js lines 117-124): throws
`'Need at least 10 data points for ARIMA'` when fewer than 10 points are
supplied, otherwise stores the series, estimates parameters and returns the
trained model. -/
def SimpleARIMA.train (m : SimpleARIMA) (timeSeries : List ℚ) :
    Except String SimpleARIMA :=
  if timeSeries.length < 10 then
    .error "Need at least 10 data points for ARIMA"
  else
    .ok (({ m with data := timeSeries }).estimateParameters timeSeries)

/-- `array.slice(-k)` on lists: the last `k` elements, or the whole list when
`k = 0` (JavaScript `slice(-0)` is `slice(0)`) or `k ≥ length`. -/
def sliceLast (l : List ℚ) (k : ℕ) : List ℚ :=
  if k = 0 then l else l.drop (l.length - k)

/-- The AR contribution of one prediction step (sw.js lines 135-137):
`Σ_{j < p, j < buf.length} phi[j] * buf[buf.length - 1 - j]`. -/
def arContribution (phi : List ℚ) (p : ℕ) (buf : List ℚ) : ℚ :=
  ((List.range (min p buf.length)).map fun j =>
    phi.getD j 0 * buf.getD (buf.length - 1 - j) 0).sum

/-- The linear trend per step (sw.js line 140):
`(data[last] - data[0]) / data.length`. -/
def trendOf (data : List ℚ) : ℚ :=
  (data.getD (data.length - 1) 0 - data.getD 0 0) / (data.length : ℚ)

/-- The prediction loop of `SimpleARIMA.predict` (sw.js lines 131-145),
threading the working buffer `lastValues`.  Returns the prediction list and
the final buffer.  Per the source, the clamped value `max 0 f` is pushed to
`predictions` while the raw forecast `f` is pushed to `lastValues`. -/
def SimpleARIMA.predictAux (phi : List ℚ) (p : ℕ) (trend : ℚ) :
    ℕ → ℕ → List ℚ → List ℚ × List ℚ
  | 0, _, buf => ([], buf)
  | n + 1, i, buf =>
    let f := arContribution phi p buf + trend * ((i : ℚ) + 1)
    let r := SimpleARIMA.predictAux phi p trend n (i + 1) (buf ++ [f])
    (max 0 f :: r.1, r.2)

/-- `SimpleARIMA.predict(steps)` (sw.js lines 127-148): start the buffer at
`data.slice(-max(p, q))` and run the prediction loop. -/
def SimpleARIMA.predict (m : SimpleARIMA) (steps : ℕ) : List ℚ :=
  (SimpleARIMA.predictAux m.phi m.p (trendOf m.data) steps 0
    (sliceLast m.data (max m.p m.q))).1

/-- The raw (unclamped) forecast sequence of the prediction loop: the same
recursion as `predictAux`, recording the value pushed onto the working
buffer at each step. -/
def rawForecasts (phi : List ℚ) (p : ℕ) (trend : ℚ) :
    ℕ → ℕ → List ℚ → List ℚ
  | 0, _, _ => []
  | n + 1, i, buf =>
    let f := arContribution phi p buf + trend * ((i : ℚ) + 1)
    f :: rawForecasts phi p trend n (i + 1) (buf ++ [f])

/-- A variant of the prediction loop following the wording of the claim under
scrutiny (not the source): the clamped value `max 0 f` is appended to the
working buffer as well as to the predictions.  Used only to compare the
claimed behaviour against the code's actual behaviour. -/
def predictAuxClaimed (phi : List ℚ) (p : ℕ) (trend : ℚ) :
    ℕ → ℕ → List ℚ → List ℚ × List ℚ
  | 0, _, buf => ([], buf)
  | n + 1, i, buf =>
    let f := arContribution phi p buf + trend * ((i : ℚ) + 1)
    let r := predictAuxClaimed phi p trend n (i + 1) (buf ++ [max 0 f])
    (max 0 f :: r.1, r.2)

/-- State of a `SimpleSARIMA` instance (sw.js lines 152-159): the inherited
`SimpleARIMA` fields plus seasonal orders `P D Q`, period `s`, and the
`hasSeason` flag set by training (absent, i.e. falsy, on a fresh model). -/
structure SimpleSARIMA where
  base : SimpleARIMA
  sP : ℕ
  sD : ℕ
  sQ : ℕ
  s : ℕ
  hasSeason : Bool
deriving DecidableEq

/-- `new SimpleSARIMA(p, d, q, P, D, Q, s)` (sw.js lines 153-159); the
`hasSeason` field is still unset (falsy). -/
def SimpleSARIMA.init (p d q P D Q s : ℕ) : SimpleSARIMA :=
  ⟨SimpleARIMA.init p d q, P, D, Q, s, false⟩

/-- `SimpleSARIMA.detectSeasonality(data)` (sw.js lines 162-174): `false` for
fewer than `2s` points; otherwise compare the mean absolute lag-`s`
difference with `0.8` times the mean absolute lag-1 difference. -/
def SimpleSARIMA.detectSeasonality (s : ℕ) (data : List ℚ) : Bool :=
  if data.length < s * 2 then false
  else
    let seasonalCorr :=
      ((List.range (data.length - s)).map fun i =>
        |data.getD i 0 - data.getD (i + s) 0|).sum
    let avgDiff :=
      ((List.range (data.length - 1)).map fun i =>
        |data.getD (i + 1) 0 - data.getD i 0|).sum / ((data.length - 1 : ℕ) : ℚ)
    decide (seasonalCorr / ((data.length - s : ℕ) : ℚ) < avgDiff * (4 / 5))

/-- `SimpleSARIMA.seasonalDifference(data)` (sw.js lines 177-183):
`data[i] - data[i-s]` for `i = s .. length-1`. -/
def seasonalDifference (s : ℕ) (data : List ℚ) : List ℚ :=
  (List.range (data.length - s)).map fun i => data.getD (i + s) 0 - data.getD i 0

/-- `SimpleSARIMA.train(timeSeries)` (sw.js lines 185-202): below `2s` points
fall back to the base `SimpleARIMA.train` (which may throw); otherwise set
the data, detect seasonality, and estimate parameters from the seasonally
differenced series (if seasonal) or the raw series. -/
def SimpleSARIMA.train (m : SimpleSARIMA) (timeSeries : List ℚ) :
    Except String SimpleSARIMA :=
  if timeSeries.length < m.s * 2 then
    (m.base.train timeSeries).map fun b => { m with base := b }
  else
    let hasSeason := SimpleSARIMA.detectSeasonality m.s timeSeries
    let withData := { m.base with data := timeSeries }
    let trained :=
      if hasSeason then
        withData.estimateParameters (seasonalDifference m.s timeSeries)
      else
        withData.estimateParameters timeSeries
    .ok { m with base := trained, hasSeason := hasSeason }

/-- `Math.round(x * 100) / 100` (sw.js line 218): JavaScript `Math.round`
rounds half towards positive infinity, i.e. `⌊v + 1/2⌋`. -/
def round2 (x : ℚ) : ℚ :=
  ((⌊x * 100 + 1 / 2⌋ : ℤ) : ℚ) / 100

/-- The multiplicative seasonal factor of one step of `SimpleSARIMA.predict`
(sw.js lines 210-213): the value one season back in the final seasonal
window of the training series, over the most recent value (defaulting to `1`
when the latter is not positive). -/
def seasonalFactorAt (data : List ℚ) (s i : ℕ) : ℚ :=
  let n := data.length
  let seasonalIndex := (n + i) % s
  let historicalSeasonal := data.getD (n - s + seasonalIndex) 0
  let recentValue := data.getD (n - 1) 0
  if 0 < recentValue then historicalSeasonal / recentValue else 1

/-- The seasonal-adjustment loop of `SimpleSARIMA.predict` (sw.js lines
209-215): rescale the prediction at step `i` by
`0.7 + 0.3 * seasonalFactor`. -/
def seasonalAdjust (data : List ℚ) (s : ℕ) : List ℚ → ℕ → List ℚ
  | [], _ => []
  | p :: ps, i =>
    p * (7 / 10 + 3 / 10 * seasonalFactorAt data s i) :: seasonalAdjust data s ps (i + 1)

/-- `SimpleSARIMA.predict(steps)` (sw.js lines 204-219): base-model
predictions, seasonally rescaled when seasonality was detected and at least
one full season of data exists, then each value clamped at `0` and rounded
to two decimals. -/
def SimpleSARIMA.predict (m : SimpleSARIMA) (steps : ℕ) : List ℚ :=
  let predictions := m.base.predict steps
  let adjusted :=
    if m.hasSeason ∧ m.s ≤ m.base.data.length then
      seasonalAdjust m.base.data m.s predictions 0
    else predictions
  adjusted.map fun p => max 0 (round2 p)

/-- `ForecastingEngine.movingAverage(data, window)` (sw.js lines 424-428):
the mean of the trailing `window` points, or the last point (`0` when the
series is empty) if fewer exist. -/
def movingAverage (data : List ℚ) (window : ℕ) : ℚ :=
  if data.length < window then (data.getLast?).getD 0
  else (sliceLast data window).sum / (window : ℚ)

/-- `ForecastingEngine.simpleExponentialSmoothing(data, alpha)` (sw.js lines
431-438): fold `forecast ← alpha*x + (1-alpha)*forecast` over the tail,
starting from the first point; `0` on an empty series. -/
def simpleExponentialSmoothing (data : List ℚ) (alpha : ℚ) : ℚ :=
  match data with
  | [] => 0
  | x :: xs => xs.foldl (fun forecast v => alpha * v + (1 - alpha) * forecast) x

/-- `ForecastingEngine.arimaForecast(data, steps)` (sw.js lines 441-450):
train a `SimpleARIMA(1,1,1)` and predict; on failure fall back to repeating
the simple-exponential-smoothing forecast (default `alpha = 0.3`). -/
def arimaForecast (data : List ℚ) (steps : ℕ) : List ℚ :=
  match (SimpleARIMA.init 1 1 1).train data with
  | .ok m => m.predict steps
  | .error _ => List.replicate steps (simpleExponentialSmoothing data (3 / 10))

/-- `ForecastingEngine.sarimaForecast(data, steps, seasonalPeriod)` (sw.js
lines 453-462): train a `SimpleSARIMA(1,1,1,1,0,1,s)` and predict; on
failure fall back to `arimaForecast`. -/
def sarimaForecast (data : List ℚ) (steps : ℕ) (seasonalPeriod : ℕ) : List ℚ :=
  match (SimpleSARIMA.init 1 1 1 1 0 1 seasonalPeriod).train data with
  | .ok m => m.predict steps
  | .error _ => arimaForecast data steps

/-- `ForecastingEngine.selectBestModel(data)` (sw.js lines 465-470). -/
def selectBestModel (data : List ℚ) : String :=
  if data.length < 10 then "ma7"
  else if data.length < 14 then "ses"
  else if data.length < 21 then "arima"
  else "sarima"

/-- The population variance of a series (`reduce(...)/length`), the value
under the square root of `ForecastingEngine.calculateStdDev` (sw.js lines
506-510). -/
def variance (data : List ℚ) : ℚ :=
  let m := listMean data
  (data.map fun v => (v - m) ^ 2).sum / (data.length : ℚ)

/-- `ForecastingEngine.calculateStdDev(data)` (sw.js lines 506-510),
parametrised by the square-root routine `sq` standing for `Math.sqrt`. -/
def calculateStdDev (sq : ℚ → ℚ) (data : List ℚ) : ℚ :=
  sq (variance data)

/-- One confidence interval of the forecast result (sw.js lines 493-497). -/
structure ConfInterval where
  forecast : ℚ
  lower : ℚ
  upper : ℚ
deriving DecidableEq

/-- The confidence-interval map of `forecastWithConfidence` (sw.js lines
493-497), with explicit 0-based index `i` and half-width function `w`:
`lower = max(0, pred - w i)`, `upper = pred + w i`. -/
def ciList (w : ℕ → ℚ) : List ℚ → ℕ → List ConfInterval
  | [], _ => []
  | p :: ps, i => ⟨p, max 0 (p - w i), p + w i⟩ :: ciList w ps (i + 1)

/-- The result envelope of `forecastWithConfidence` (sw.js lines 499-503). -/
structure ForecastResult where
  model : String
  predictions : List ℚ
  confidenceIntervals : List ConfInterval
deriving DecidableEq

/-- Model-name resolution of `forecastWithConfidence` (sw.js lines 474-476):
`"auto"` is replaced by `selectBestModel`. -/
def resolveModel (data : List ℚ) (model : String) : String :=
  if model = "auto" then selectBestModel data else model

/-- The dispatch of `forecastWithConfidence` on the resolved model name
(sw.js lines 478-489): `"arima"`, `"sarima"` and `"ses"` are recognised;
anything else falls through to the trailing-7-point moving average repeated
for every step. -/
def dispatchPredictions (data : List ℚ) (steps : ℕ) (model : String) : List ℚ :=
  if model = "arima" then arimaForecast data steps
  else if model = "sarima" then sarimaForecast data steps 7
  else if model = "ses" then
    List.replicate steps (simpleExponentialSmoothing data (3 / 10))
  else List.replicate steps (movingAverage data 7)

/-- `ForecastingEngine.forecastWithConfidence(data, steps, model)` (sw.js
lines 473-504), parametrised by the square-root routine `sq`: resolve the
model name, dispatch, and attach confidence intervals of half-width
`1.96 * stdDev(data) * sqrt(i + 1)` at step `i`; the returned tag is the
resolved name upper-cased. -/
def forecastWithConfidence (sq : ℚ → ℚ) (data : List ℚ) (steps : ℕ)
    (model : String) : ForecastResult :=
  let resolved := resolveModel data model
  let predictions := dispatchPredictions data steps resolved
  let stdDev := calculateStdDev sq data
  ⟨resolved.toUpper, predictions,
    ciList (fun i => 49 / 25 * stdDev * sq ((i : ℚ) + 1)) predictions 0⟩

/-- An exact-on-perfect-squares rational square root: `Math.sqrt` agrees with
it on every perfect square.  Used to instantiate the square-root parameter
in concrete evaluations (whose relevant inputs are all perfect squares). -/
def ratSqrt (x : ℚ) : ℚ :=
  ((Nat.sqrt x.num.toNat : ℕ) : ℚ) / ((Nat.sqrt x.den : ℕ) : ℚ)

/-! ## NaN-faithful layer for the base model

The ℚ embedding above collapses JavaScript's `0/0 = NaN` to `0`.  That is
sound for the structural claims, but not for the nonnegativity of
predictions: when the differenced training series has zero variance the
source produces a NaN coefficient (`0/0` at sw.js line 96) and then NaN
predictions (`NaN * x = NaN` at line 136, `Math.max(0, NaN) = NaN` at line
143), and `NaN >= 0` is false.  The definitions below re-embed the base
model with `Option ℚ`, `none` standing for NaN.  In this pipeline `none`
arises only from `0/0`: a vanishing autocorrelation denominator (a sum of
squared centred values) forces every centred value, hence the numerator, to
vanish, and every other denominator is a nonzero length — so no JavaScript
infinity is conflated with `none`. -/

/-- JavaScript `+` with NaN propagation. -/
def jadd : Option ℚ → Option ℚ → Option ℚ
  | some x, some y => some (x + y)
  | _, _ => none

/-- JavaScript `*` with NaN propagation (`NaN * x = NaN` for every `x`,
including `0`). -/
def jmul : Option ℚ → Option ℚ → Option ℚ
  | some x, some y => some (x * y)
  | _, _ => none

/-- `Math.max(0, x)` (sw.js line 143): NaN passes through
(`Math.max(0, NaN) = NaN`), otherwise clamp at `0`. -/
def jmax0 : Option ℚ → Option ℚ
  | some x => some (max 0 x)
  | none => none

/-- NaN-faithful `SimpleARIMA.autocorrelation` (sw.js lines 83-97): the
division at line 96 is `0/0 = NaN` exactly when the denominator vanishes
(then every centred value, hence the numerator, vanishes as well — this
also covers the empty series, where the mean is NaN but both loop sums are
the empty sum `0`); otherwise it is the finite quotient. -/
def autocorrelationNaN (data : List ℚ) (lag : ℕ) : Option ℚ :=
  let m := listMean data
  let numerator :=
    ((List.range (data.length - lag)).map fun i =>
      (data.getD i 0 - m) * (data.getD (i + lag) 0 - m)).sum
  let denominator := (data.map fun x => (x - m) ^ 2).sum
  if denominator = 0 then none else some (numerator / denominator)

/-- NaN-faithful state of a `SimpleARIMA` instance: the AR coefficients may
be NaN (`none`); the MA coefficients (`0.3 / i`, `i ≥ 1`) and the training
series are always finite. -/
structure SimpleARIMANaN where
  p : ℕ
  d : ℕ
  q : ℕ
  phi : List (Option ℚ)
  theta : List ℚ
  data : List ℚ
deriving DecidableEq

/-- NaN-faithful `new SimpleARIMA(p, d, q)` (sw.js lines 61-67). -/
def SimpleARIMANaN.init (p d q : ℕ) : SimpleARIMANaN :=
  ⟨p, d, q, [], [], []⟩

/-- NaN-faithful `estimateParameters` (sw.js lines 100-114): differencing of
finite values is finite, so only the autocorrelations can be NaN. -/
def SimpleARIMANaN.estimateParameters (m : SimpleARIMANaN) (data : List ℚ) :
    SimpleARIMANaN :=
  let diffed := difference data m.d
  { m with
    phi := (List.range m.p).map fun i => autocorrelationNaN diffed (i + 1),
    theta := (List.range m.q).map fun (i : ℕ) => (3 / 10 : ℚ) / ((i : ℚ) + 1) }

/-- NaN-faithful `train` (sw.js lines 117-124). -/
def SimpleARIMANaN.train (m : SimpleARIMANaN) (timeSeries : List ℚ) :
    Except String SimpleARIMANaN :=
  if timeSeries.length < 10 then
    .error "Need at least 10 data points for ARIMA"
  else
    .ok (({ m with data := timeSeries }).estimateParameters timeSeries)

/-- NaN-faithful AR contribution of one prediction step (sw.js lines
135-137): `forecast` starts at `0` and accumulates `phi[j] * lastValues[...]`
left to right with NaN propagation. -/
def arContributionNaN (phi : List (Option ℚ)) (p : ℕ)
    (buf : List (Option ℚ)) : Option ℚ :=
  ((List.range (min p buf.length)).map fun j =>
    jmul (phi.getD j (some 0)) (buf.getD (buf.length - 1 - j) (some 0))).foldl
    jadd (some 0)

/-- NaN-faithful prediction loop (sw.js lines 131-145): `Math.max(0, f)` is
pushed to the predictions (NaN passing through) and the raw forecast to the
working buffer; the trend term (sw.js line 140) is finite for any trained
model, since training requires a nonempty series. -/
def SimpleARIMANaN.predictAux (phi : List (Option ℚ)) (p : ℕ) (trend : ℚ) :
    ℕ → ℕ → List (Option ℚ) → List (Option ℚ) × List (Option ℚ)
  | 0, _, buf => ([], buf)
  | n + 1, i, buf =>
    let f := jadd (arContributionNaN phi p buf) (some (trend * ((i : ℚ) + 1)))
    let r := SimpleARIMANaN.predictAux phi p trend n (i + 1) (buf ++ [f])
    (jmax0 f :: r.1, r.2)

/-- NaN-faithful `predict` (sw.js lines 127-148): the initial buffer holds
the (finite) tail of the training series. -/
def SimpleARIMANaN.predict (m : SimpleARIMANaN) (steps : ℕ) : List (Option ℚ) :=
  (SimpleARIMANaN.predictAux m.phi m.p (trendOf m.data) steps 0
    ((sliceLast m.data (max m.p m.q)).map some)).1

/-! ## Supporting lemmas -/

theorem predictAux_fst_length (phi : List ℚ) (p : ℕ) (t : ℚ) (n : ℕ) :
    ∀ (i : ℕ) (buf : List ℚ),
      ((SimpleARIMA.predictAux phi p t n i buf).1).length = n := by
  induction n with
  | zero => intro i buf; rfl
  | succ n ih => intro i buf; simp [SimpleARIMA.predictAux, ih]

theorem predict_length (m : SimpleARIMA) (steps : ℕ) :
    (m.predict steps).length = steps :=
  predictAux_fst_length m.phi m.p (trendOf m.data) steps 0 _

/-! ## Claim C1: base-model predictions under NaN-faithful semantics -/

/-- Counterexample to claim C1 (that for every series of length at least 10
every prediction is a nonnegative number): on the constant series `[5] * 10`
the once-differenced series is `[0] * 9`, whose variance vanishes, so the AR
coefficient is `0/0 = NaN` (sw.js line 96) and every prediction is NaN
(`NaN * x` at line 136, `Math.max(0, NaN) = NaN` at line 143) — and NaN is
not a nonnegative number. -/
theorem arima_constant_series_nan_cx :
    10 ≤ ([5, 5, 5, 5, 5, 5, 5, 5, 5, 5] : List ℚ).length ∧
    (((SimpleARIMANaN.init 1 1 1).train
        [5, 5, 5, 5, 5, 5, 5, 5, 5, 5]).toOption.map
      fun m => m.predict 3) = some [none, none, none] ∧
    ¬ ∃ x : ℚ, (none : Option ℚ) = some x ∧ 0 ≤ x :=
  ⟨by decide, of_decide_eq_true (by with_unfolding_all rfl),
   by rintro ⟨x, hx, -⟩; cases hx⟩

theorem predictAuxNaN_fst_length (phi : List (Option ℚ)) (p : ℕ) (t : ℚ)
    (n : ℕ) : ∀ (i : ℕ) (buf : List (Option ℚ)),
      ((SimpleARIMANaN.predictAux phi p t n i buf).1).length = n := by
  induction n with
  | zero => intro i buf; rfl
  | succ n ih => intro i buf; simp [SimpleARIMANaN.predictAux, ih]

theorem predictAuxNaN_fst_numeric_nonneg (phi : List (Option ℚ)) (p : ℕ)
    (t : ℚ) (n : ℕ) : ∀ (i : ℕ) (buf : List (Option ℚ)) (v : Option ℚ),
      v ∈ (SimpleARIMANaN.predictAux phi p t n i buf).1 →
        ∀ x : ℚ, v = some x → 0 ≤ x := by
  induction n with
  | zero => intro i buf v hv; simp [SimpleARIMANaN.predictAux] at hv
  | succ n ih =>
    intro i buf v hv x hx
    simp only [SimpleARIMANaN.predictAux, List.mem_cons] at hv
    rcases hv with rfl | hv
    · cases harc : jadd (arContributionNaN phi p buf)
          (some (t * ((i : ℚ) + 1))) with
      | none =>
        rw [harc] at hx
        exact absurd hx (by simp [jmax0])
      | some y =>
        rw [harc] at hx
        simp only [jmax0, Option.some.injEq] at hx
        exact hx ▸ le_max_left 0 y
    · exact ih (i + 1) _ v hv x hx

theorem foldl_jadd_some : ∀ (l : List (Option ℚ)), (∀ v ∈ l, v ≠ none) →
    ∀ a : ℚ, ∃ x : ℚ, l.foldl jadd (some a) = some x := by
  intro l
  induction l with
  | nil => intro _ a; exact ⟨a, rfl⟩
  | cons v vs ih =>
    intro hl a
    rcases v with _ | y
    · exact absurd rfl (hl none (List.mem_cons_self _ _))
    · simpa [jadd] using ih (fun w hw => hl w (List.mem_cons_of_mem _ hw)) (a + y)

theorem getD_some_of_all : ∀ (l : List (Option ℚ)), (∀ v ∈ l, v ≠ none) →
    ∀ k : ℕ, ∃ a : ℚ, l.getD k (some 0) = some a := by
  intro l
  induction l with
  | nil => intro _ k; exact ⟨0, by simp⟩
  | cons v vs ih =>
    intro hl k
    cases k with
    | zero =>
      rcases hv : v with _ | a
      · exact absurd hv (hl v (List.mem_cons_self _ _))
      · exact ⟨a, by simp [hv]⟩
    | succ k => simpa using ih (fun w hw => hl w (List.mem_cons_of_mem _ hw)) k

theorem arContributionNaN_some (phi : List (Option ℚ)) (p : ℕ)
    (buf : List (Option ℚ)) (hphi : ∀ v ∈ phi, v ≠ none)
    (hbuf : ∀ v ∈ buf, v ≠ none) :
    ∃ x : ℚ, arContributionNaN phi p buf = some x := by
  unfold arContributionNaN
  apply foldl_jadd_some
  intro v hv
  simp only [List.mem_map, List.mem_range] at hv
  obtain ⟨j, hj, rfl⟩ := hv
  obtain ⟨a, ha⟩ := getD_some_of_all phi hphi j
  obtain ⟨b, hb⟩ := getD_some_of_all buf hbuf (buf.length - 1 - j)
  rw [ha, hb]
  simp [jmul]

theorem predictAuxNaN_fst_all_some (phi : List (Option ℚ)) (p : ℕ) (t : ℚ)
    (hphi : ∀ v ∈ phi, v ≠ none) (n : ℕ) :
    ∀ (i : ℕ) (buf : List (Option ℚ)), (∀ v ∈ buf, v ≠ none) →
      ∀ v ∈ (SimpleARIMANaN.predictAux phi p t n i buf).1,
        ∃ x : ℚ, v = some x ∧ 0 ≤ x := by
  induction n with
  | zero => intro i buf _ v hv; simp [SimpleARIMANaN.predictAux] at hv
  | succ n ih =>
    intro i buf hbuf v hv
    obtain ⟨y, hy⟩ := arContributionNaN_some phi p buf hphi hbuf
    have hf : jadd (arContributionNaN phi p buf) (some (t * ((i : ℚ) + 1))) =
        some (y + t * ((i : ℚ) + 1)) := by simp [jadd, hy]
    simp only [SimpleARIMANaN.predictAux, List.mem_cons] at hv
    rcases hv with rfl | hv
    · exact ⟨max 0 (y + t * ((i : ℚ) + 1)), by simp [jmax0, hf], le_max_left _ _⟩
    · refine ih (i + 1) _ ?_ v hv
      intro w hw
      rcases List.mem_append.mp hw with hmem | hmem
      · exact hbuf w hmem
      · simp only [List.mem_singleton] at hmem
        subst hmem
        simp [hf]

/-- Claim C1 as amended: for every series of length at least 10 and every
requested number of steps, training the base ARIMA model and predicting
returns a sequence of exactly `steps` values; every value that is a number
is nonnegative, and whenever no estimated AR coefficient is NaN (i.e. every
autocorrelation denominator of the differenced series is nonzero), all
`steps` values are nonnegative numbers.  When the differenced series has
zero variance — e.g. a constant series — the coefficients and with them all
predictions are NaN, which is not a nonnegative number (see the
counterexample). -/
theorem arima_train_predict_nan_spec (p d q : ℕ) (data : List ℚ) (steps : ℕ)
    (h : 10 ≤ data.length) :
    ∃ m, (SimpleARIMANaN.init p d q).train data = .ok m ∧
      (m.predict steps).length = steps ∧
      (∀ v ∈ m.predict steps, ∀ x : ℚ, v = some x → 0 ≤ x) ∧
      ((∀ c ∈ m.phi, c ≠ none) →
        ∀ v ∈ m.predict steps, ∃ x : ℚ, v = some x ∧ 0 ≤ x) := by
  refine ⟨({ SimpleARIMANaN.init p d q with data := data }).estimateParameters data,
    ?_, ?_, ?_, ?_⟩
  · unfold SimpleARIMANaN.train
    rw [if_neg (by omega)]
  · exact predictAuxNaN_fst_length _ _ _ _ _ _
  · exact fun v hv x hx => predictAuxNaN_fst_numeric_nonneg _ _ _ _ _ _ v hv x hx
  · intro hphi v hv
    refine predictAuxNaN_fst_all_some _ _ _ hphi _ _ _ ?_ v hv
    intro w hw
    simp only [List.mem_map] at hw
    obtain ⟨z, _, rfl⟩ := hw
    simp

theorem arima_train_predict_nan_spec_witness :
    10 ≤ ([10, 12, 11, 13, 12, 14, 13, 15, 14, 16] : List ℚ).length ∧
    ∃ m, (SimpleARIMANaN.init 1 1 1).train
        [10, 12, 11, 13, 12, 14, 13, 15, 14, 16] = .ok m ∧
      (m.predict 7).length = 7 ∧
      (∀ v ∈ m.predict 7, ∀ x : ℚ, v = some x → 0 ≤ x) ∧
      ((∀ c ∈ m.phi, c ≠ none) →
        ∀ v ∈ m.predict 7, ∃ x : ℚ, v = some x ∧ 0 ≤ x) :=
  ⟨by decide, arima_train_predict_nan_spec 1 1 1 _ 7 (by decide)⟩

/-- Claim C2: `selectBestModel` returns `"ma7"` for lengths in `[0,9]`,
`"ses"` for `[10,13]`, `"arima"` for `[14,20]`, `"sarima"` from 21 on. -/
theorem selectBestModel_thresholds (data : List ℚ) :
    (data.length ≤ 9 → selectBestModel data = "ma7") ∧
    (10 ≤ data.length ∧ data.length ≤ 13 → selectBestModel data = "ses") ∧
    (14 ≤ data.length ∧ data.length ≤ 20 → selectBestModel data = "arima") ∧
    (21 ≤ data.length → selectBestModel data = "sarima") := by
  unfold selectBestModel
  refine ⟨fun h => ?_, fun h => ?_, fun h => ?_, fun h => ?_⟩ <;>
    split_ifs <;> first | rfl | omega

theorem selectBestModel_thresholds_witness :
    selectBestModel (List.replicate 9 (0 : ℚ)) = "ma7" ∧
    selectBestModel (List.replicate 10 (0 : ℚ)) = "ses" ∧
    selectBestModel (List.replicate 14 (0 : ℚ)) = "arima" ∧
    selectBestModel (List.replicate 21 (0 : ℚ)) = "sarima" :=
  ⟨(selectBestModel_thresholds _).1 (by decide),
   (selectBestModel_thresholds _).2.1 (by decide),
   (selectBestModel_thresholds _).2.2.1 (by decide),
   (selectBestModel_thresholds _).2.2.2 (by decide)⟩

/-- Claim C5: base-model training fails with the insufficient-data error
exactly when the series has fewer than 10 points, and otherwise returns the
trained model (its data set to the series, `p` AR and `q` MA
coefficients). -/
theorem train_insufficient_data (p d q : ℕ) (data : List ℚ) :
    (data.length < 10 →
      (SimpleARIMA.init p d q).train data =
        .error "Need at least 10 data points for ARIMA") ∧
    (10 ≤ data.length →
      ∃ m, (SimpleARIMA.init p d q).train data = .ok m ∧
        m.data = data ∧ m.phi.length = p ∧ m.theta.length = q) := by
  constructor
  · intro h
    unfold SimpleARIMA.train
    rw [if_pos h]
  · intro h
    refine ⟨({ SimpleARIMA.init p d q with data := data }).estimateParameters data,
      ?_, rfl, ?_, ?_⟩
    · unfold SimpleARIMA.train
      rw [if_neg (by omega)]
    · simp only [SimpleARIMA.estimateParameters, SimpleARIMA.init,
        List.length_map, List.length_range]
    · simp only [SimpleARIMA.estimateParameters, SimpleARIMA.init,
        List.length_map, List.length_range]

theorem train_insufficient_data_witness :
    ((SimpleARIMA.init 1 1 1).train [1, 2, 3] =
      .error "Need at least 10 data points for ARIMA") ∧
    ∃ m, (SimpleARIMA.init 1 1 1).train [1, 2, 3, 4, 5, 6, 7, 8, 9, 10] = .ok m ∧
      m.data = [1, 2, 3, 4, 5, 6, 7, 8, 9, 10] ∧ m.phi.length = 1 ∧ m.theta.length = 1 :=
  ⟨(train_insufficient_data 1 1 1 _).1 (by decide),
   (train_insufficient_data 1 1 1 _).2 (by decide)⟩

/-- Claim C6: the engine never propagates a model-level failure.  Whenever
ARIMA training fails, `arimaForecast` returns `steps` copies of the
simple-exponential-smoothing forecast, and whenever SARIMA training fails,
`sarimaForecast` returns the plain `arimaForecast` result; both are total
functions, so no error ever reaches the caller. -/
theorem engine_fallback_policy (data : List ℚ) (steps sp : ℕ) :
    (∀ e, (SimpleARIMA.init 1 1 1).train data = .error e →
      arimaForecast data steps =
        List.replicate steps (simpleExponentialSmoothing data (3 / 10))) ∧
    (∀ e, (SimpleSARIMA.init 1 1 1 1 0 1 sp).train data = .error e →
      sarimaForecast data steps sp = arimaForecast data steps) := by
  constructor
  · intro e he
    unfold arimaForecast
    rw [he]
  · intro e he
    unfold sarimaForecast
    rw [he]

theorem engine_fallback_policy_witness :
    arimaForecast [1, 2, 3] 4 =
      List.replicate 4 (simpleExponentialSmoothing [1, 2, 3] (3 / 10)) ∧
    sarimaForecast [1, 2, 3] 4 7 = arimaForecast [1, 2, 3] 4 :=
  ⟨(engine_fallback_policy [1, 2, 3] 4 7).1
      "Need at least 10 data points for ARIMA" (by rfl),
   (engine_fallback_policy [1, 2, 3] 4 7).2
      "Need at least 10 data points for ARIMA" (by rfl)⟩

/-! ## Claim C7: what the prediction loop appends to its working buffer -/

set_option maxRecDepth 100000 in
set_option maxHeartbeats 1000000 in
/-- Counterexample to claim C7 (that the clamped value is appended to the
working buffer): on the 10-point series `[4,10,...]`, after one prediction
step the working buffer ends with the raw forecast `-373/45`, which is
negative, hence not the clamped (nonnegative) value; consequently the
two-step predictions of the code differ from those of the claimed
clamped-append loop (`694/81` versus `6/5` at step 1). -/
theorem predict_appends_unclamped_cx :
    ((((SimpleARIMA.init 1 1 1).train
        [4, 10, 4, 10, 4, 10, 4, 10, 4, 10]).toOption.map
      fun m => (SimpleARIMA.predictAux m.phi m.p (trendOf m.data) 1 0
        (sliceLast m.data (max m.p m.q))).2) = some [10, -373 / 45]) ∧
    ¬ (0 : ℚ) ≤ -373 / 45 ∧
    ((((SimpleARIMA.init 1 1 1).train
        [4, 10, 4, 10, 4, 10, 4, 10, 4, 10]).toOption.map
      fun m => m.predict 2) = some [0, 694 / 81]) ∧
    ((((SimpleARIMA.init 1 1 1).train
        [4, 10, 4, 10, 4, 10, 4, 10, 4, 10]).toOption.map
      fun m => (predictAuxClaimed m.phi m.p (trendOf m.data) 2 0
        (sliceLast m.data (max m.p m.q))).1) = some [0, 6 / 5]) ∧
    ([0, 694 / 81] : List ℚ) ≠ [0, 6 / 5] :=
  of_decide_eq_true (by with_unfolding_all rfl)

/-- Claim C7 as amended: at every step the returned prediction is the
clamped value `max 0 forecast`, but the value appended to the working buffer
read by the autoregressive terms of subsequent steps is the raw, unclamped
forecast. -/
theorem predict_clamps_output_appends_raw (phi : List ℚ) (p : ℕ) (t : ℚ)
    (n : ℕ) : ∀ (i : ℕ) (buf : List ℚ),
    (SimpleARIMA.predictAux phi p t n i buf).1 =
      (rawForecasts phi p t n i buf).map (fun f => max 0 f) ∧
    (SimpleARIMA.predictAux phi p t n i buf).2 =
      buf ++ rawForecasts phi p t n i buf := by
  induction n with
  | zero => intro i buf; exact ⟨rfl, (List.append_nil buf).symm⟩
  | succ n ih =>
    intro i buf
    constructor
    · simp only [SimpleARIMA.predictAux, rawForecasts, List.map_cons]
      exact congrArg _ (ih (i + 1) _).1
    · simp only [SimpleARIMA.predictAux, rawForecasts]
      rw [(ih (i + 1) _).2]
      simp

/-! ## Claim C8: short-series delegation of the seasonal model -/

set_option maxRecDepth 100000 in
set_option maxHeartbeats 1000000 in
/-- Counterexample to claim C8 (that on a series shorter than `2s` the
seasonal model predicts exactly what the base model predicts): on the
10-point series `[4,10,...]` (shorter than `2*7 = 14`), the seasonal model
rounds to two decimals, returning `857/100` at step 1 where the base model
returns `694/81`. -/
theorem sarima_short_rounding_cx :
    (((SimpleSARIMA.init 1 1 1 1 0 1 7).train
        [4, 10, 4, 10, 4, 10, 4, 10, 4, 10]).toOption.map
      fun m => m.predict 2) = some [0, 857 / 100] ∧
    (((SimpleARIMA.init 1 1 1).train
        [4, 10, 4, 10, 4, 10, 4, 10, 4, 10]).toOption.map
      fun m => m.predict 2) = some [0, 694 / 81] ∧
    (857 / 100 : ℚ) ≠ 694 / 81 ∧
    ([4, 10, 4, 10, 4, 10, 4, 10, 4, 10] : List ℚ).length < 7 * 2 :=
  of_decide_eq_true (by with_unfolding_all rfl)

/-- Claim C8 as amended: for every series shorter than `2s`, training the
seasonal model delegates to base-model training (failing exactly when it
fails), and predicting yields the base model's prediction sequence with each
value clamped at `0` and rounded to two decimal places (half up), rather
than the identical sequence. -/
theorem sarima_short_delegates_rounded (p d q P D Q s : ℕ) (data : List ℚ)
    (steps : ℕ) (hshort : data.length < s * 2) :
    ((SimpleSARIMA.init p d q P D Q s).train data).map
        (fun sm => sm.predict steps) =
      ((SimpleARIMA.init p d q).train data).map
        (fun bm => (bm.predict steps).map fun x => max 0 (round2 x)) := by
  have hsid : (SimpleSARIMA.init p d q P D Q s).s = s := rfl
  have hbase : (SimpleSARIMA.init p d q P D Q s).base = SimpleARIMA.init p d q := rfl
  simp only [SimpleSARIMA.train, hsid, hbase]
  rw [if_pos hshort]
  cases h : (SimpleARIMA.init p d q).train data with
  | error e => rfl
  | ok b => rfl

theorem seasonalAdjust_length (data : List ℚ) (s : ℕ) :
    ∀ (ps : List ℚ) (i : ℕ), (seasonalAdjust data s ps i).length = ps.length := by
  intro ps
  induction ps with
  | nil => intro i; rfl
  | cons x xs ih => intro i; simp [seasonalAdjust, ih]

theorem seasonalAdjust_getD (data : List ℚ) (s : ℕ) :
    ∀ (ps : List ℚ) (i0 k : ℕ), k < ps.length →
      (seasonalAdjust data s ps i0).getD k 0 =
        ps.getD k 0 * (7 / 10 + 3 / 10 * seasonalFactorAt data s (i0 + k)) := by
  intro ps
  induction ps with
  | nil => intro i0 k hk; simp at hk
  | cons x xs ih =>
    intro i0 k hk
    cases k with
    | zero => simp [seasonalAdjust]
    | succ k =>
      have hk' : k < xs.length := by simpa using hk
      have hidx : i0 + (k + 1) = i0 + 1 + k := by omega
      simp only [seasonalAdjust, List.getD_cons_succ, hidx]
      exact ih (i0 + 1) k hk'

theorem getD_map_fn (f : ℚ → ℚ) : ∀ (l : List ℚ) (k : ℕ), k < l.length →
    (l.map f).getD k 0 = f (l.getD k 0) := by
  intro l
  induction l with
  | nil => intro k hk; simp at hk
  | cons x xs ih =>
    intro k hk
    cases k with
    | zero => simp
    | succ k => simpa using ih k (by simpa using hk)

theorem sarima_short_delegates_rounded_witness :
    ((SimpleSARIMA.init 1 1 1 1 0 1 7).train
        [4, 10, 4, 10, 4, 10, 4, 10, 4, 10]).map (fun sm => sm.predict 2) =
      ((SimpleARIMA.init 1 1 1).train
        [4, 10, 4, 10, 4, 10, 4, 10, 4, 10]).map
        (fun bm => (bm.predict 2).map fun x => max 0 (round2 x)) :=
  sarima_short_delegates_rounded 1 1 1 1 0 1 7 _ 2 (by decide)

/-! ## Claim C9: the seasonal rescaling formula -/

/-- Claim C9: when seasonality was detected (and the training series covers
at least one period), `SimpleSARIMA.predict` multiplies the base-model
forecast at step `i` by `0.7 + 0.3 * seasonalFactor`, where `seasonalFactor`
is the training-series value one seasonal period before the forecast
position (wrapped into the final seasonal window by modulo arithmetic)
divided by the most recent training-series value, defaulting to `1` when the
latter is not positive; the product is then clamped at `0` and rounded to
two decimals, per the final mapping of `predict`. -/
theorem sarima_seasonal_rescale (m : SimpleSARIMA) (steps i : ℕ)
    (hi : i < steps) (hseason : m.hasSeason = true)
    (hs : m.s ≤ m.base.data.length) :
    (m.predict steps).getD i 0 =
      max 0 (round2 ((m.base.predict steps).getD i 0 *
        (7 / 10 + 3 / 10 *
          (if 0 < m.base.data.getD (m.base.data.length - 1) 0 then
            m.base.data.getD (m.base.data.length - m.s +
              ((m.base.data.length + i - m.s) % m.s)) 0 /
              m.base.data.getD (m.base.data.length - 1) 0
          else 1)))) := by
  have hlen : (m.base.predict steps).length = steps := predict_length _ _
  simp only [SimpleSARIMA.predict]
  rw [if_pos ⟨hseason, hs⟩]
  rw [getD_map_fn _ _ i (by rw [seasonalAdjust_length]; omega)]
  rw [seasonalAdjust_getD _ _ _ 0 i (by omega), Nat.zero_add]
  simp only [seasonalFactorAt]
  rw [Nat.mod_eq_sub_mod (show m.s <= m.base.data.length + i by omega)]

/-- The trained seasonal model used to witness the seasonal-rescaling
theorem: exactly what `SimpleSARIMA(1,1,1,1,0,1,7).train` produces on the
periodic series `[1..7,1..7]` (seasonality detected, `phi = [0]`). -/
def seasonalWitnessModel : SimpleSARIMA :=
  ⟨⟨1, 1, 1, [0], [3 / 10], [1, 2, 3, 4, 5, 6, 7, 1, 2, 3, 4, 5, 6, 7]⟩, 1, 0, 1, 7, true⟩

theorem sarima_seasonal_rescale_witness :
    (SimpleSARIMA.init 1 1 1 1 0 1 7).train [1, 2, 3, 4, 5, 6, 7, 1, 2, 3, 4, 5, 6, 7] =
      .ok seasonalWitnessModel ∧
    0 < 1 ∧ seasonalWitnessModel.hasSeason = true ∧
    seasonalWitnessModel.s ≤ seasonalWitnessModel.base.data.length ∧
    (seasonalWitnessModel.predict 1).getD 0 0 =
      max 0 (round2 ((seasonalWitnessModel.base.predict 1).getD 0 0 *
        (7 / 10 + 3 / 10 *
          (if 0 < seasonalWitnessModel.base.data.getD
              (seasonalWitnessModel.base.data.length - 1) 0 then
            seasonalWitnessModel.base.data.getD
              (seasonalWitnessModel.base.data.length - seasonalWitnessModel.s +
                ((seasonalWitnessModel.base.data.length + 0 - seasonalWitnessModel.s) %
                  seasonalWitnessModel.s)) 0 /
              seasonalWitnessModel.base.data.getD
                (seasonalWitnessModel.base.data.length - 1) 0
          else 1)))) :=
  ⟨by with_unfolding_all rfl, Nat.zero_lt_one, rfl, by decide,
   sarima_seasonal_rescale seasonalWitnessModel 1 0 Nat.zero_lt_one rfl (by decide)⟩

/-! ## Confidence intervals: lemmas -/

theorem ciList_length (w : ℕ → ℚ) : ∀ (ps : List ℚ) (i : ℕ),
    (ciList w ps i).length = ps.length := by
  intro ps
  induction ps with
  | nil => intro i; rfl
  | cons x xs ih => intro i; simp [ciList, ih]

theorem ciList_getD (w : ℕ → ℚ) : ∀ (ps : List ℚ) (i0 k : ℕ), k < ps.length →
    (ciList w ps i0).getD k ⟨0, 0, 0⟩ =
      ⟨ps.getD k 0, max 0 (ps.getD k 0 - w (i0 + k)), ps.getD k 0 + w (i0 + k)⟩ := by
  intro ps
  induction ps with
  | nil => intro i0 k hk; simp at hk
  | cons x xs ih =>
    intro i0 k hk
    cases k with
    | zero => simp [ciList]
    | succ k =>
      have hk' : k < xs.length := by simpa using hk
      have hidx : i0 + (k + 1) = i0 + 1 + k := by omega
      simp only [ciList, List.getD_cons_succ, hidx]
      exact ih (i0 + 1) k hk'

theorem sarimaPredict_length (m : SimpleSARIMA) (steps : Nat) :
    (m.predict steps).length = steps := by
  simp only [SimpleSARIMA.predict]
  rw [List.length_map]
  split_ifs with h
  · rw [seasonalAdjust_length]; exact predict_length _ _
  · exact predict_length _ _

theorem arimaForecast_length (data : List ℚ) (steps : Nat) :
    (arimaForecast data steps).length = steps := by
  unfold arimaForecast
  cases (SimpleARIMA.init 1 1 1).train data with
  | ok m => exact predict_length m steps
  | error e => simp

theorem sarimaForecast_length (data : List ℚ) (steps sp : Nat) :
    (sarimaForecast data steps sp).length = steps := by
  unfold sarimaForecast
  cases (SimpleSARIMA.init 1 1 1 1 0 1 sp).train data with
  | ok m => exact sarimaPredict_length m steps
  | error e => exact arimaForecast_length data steps

theorem dispatchPredictions_length (data : List ℚ) (steps : Nat) (model : String) :
    (dispatchPredictions data steps model).length = steps := by
  unfold dispatchPredictions
  split_ifs <;> first
    | exact arimaForecast_length data steps
    | exact sarimaForecast_length data steps 7
    | simp

theorem fwc_model_eq (sq : ℚ → ℚ) (data : List ℚ) (steps : Nat) (model : String) :
    (forecastWithConfidence sq data steps model).model =
      (resolveModel data model).toUpper := rfl

theorem fwc_predictions_eq (sq : ℚ → ℚ) (data : List ℚ) (steps : Nat) (model : String) :
    (forecastWithConfidence sq data steps model).predictions =
      dispatchPredictions data steps (resolveModel data model) := rfl

theorem fwc_cis_eq (sq : ℚ → ℚ) (data : List ℚ) (steps : Nat) (model : String) :
    (forecastWithConfidence sq data steps model).confidenceIntervals =
      ciList (fun i => 49 / 25 * calculateStdDev sq data * sq ((i : ℚ) + 1))
        (dispatchPredictions data steps (resolveModel data model)) 0 := rfl

/-! ## Claim C3: the confidence-interval formula -/

/-- Claim C3: for every series, steps count, model choice and step index
`i < steps`, the confidence interval at index `i` has
`lower = max(0, forecast - 1.96 * sigma * sqrt(i+1))` and
`upper = forecast + 1.96 * sigma * sqrt(i+1)`, where `sigma` is the square
root of the population variance (divide by `N`) of the raw input series; in
particular the lower bound is never negative.  Stated for every square-root
routine `sq`, hence for `Math.sqrt`. -/
theorem fwc_interval_formula (sq : ℚ → ℚ) (data : List ℚ) (steps : ℕ)
    (model : String) (i : ℕ) (hi : i < steps) :
    (forecastWithConfidence sq data steps model).confidenceIntervals.getD i ⟨0, 0, 0⟩ =
      ⟨(forecastWithConfidence sq data steps model).predictions.getD i 0,
       max 0 ((forecastWithConfidence sq data steps model).predictions.getD i 0 -
         49 / 25 * sq (variance data) * sq ((i : ℚ) + 1)),
       (forecastWithConfidence sq data steps model).predictions.getD i 0 +
         49 / 25 * sq (variance data) * sq ((i : ℚ) + 1)⟩ ∧
    0 ≤ ((forecastWithConfidence sq data steps model).confidenceIntervals.getD i
      ⟨0, 0, 0⟩).lower := by
  have hlen : (dispatchPredictions data steps (resolveModel data model)).length = steps :=
    dispatchPredictions_length data steps (resolveModel data model)
  constructor
  · rw [fwc_cis_eq, fwc_predictions_eq, ciList_getD _ _ 0 i (by omega), Nat.zero_add]
    rfl
  · rw [fwc_cis_eq, ciList_getD _ _ 0 i (by omega)]
    exact le_max_left 0 _

theorem fwc_interval_formula_witness :
    0 < 1 ∧
    ((forecastWithConfidence id [5, 5, 5, 5, 5, 5, 5, 5, 5, 5] 1 "ses").confidenceIntervals.getD 0
        ⟨0, 0, 0⟩ =
      ⟨(forecastWithConfidence id [5, 5, 5, 5, 5, 5, 5, 5, 5, 5] 1 "ses").predictions.getD 0 0,
       max 0 ((forecastWithConfidence id [5, 5, 5, 5, 5, 5, 5, 5, 5, 5] 1 "ses").predictions.getD 0 0 -
         49 / 25 * id (variance [5, 5, 5, 5, 5, 5, 5, 5, 5, 5]) * id (((0 : ℕ) : ℚ) + 1)),
       (forecastWithConfidence id [5, 5, 5, 5, 5, 5, 5, 5, 5, 5] 1 "ses").predictions.getD 0 0 +
         49 / 25 * id (variance [5, 5, 5, 5, 5, 5, 5, 5, 5, 5]) * id (((0 : ℕ) : ℚ) + 1)⟩ ∧
     0 ≤ ((forecastWithConfidence id [5, 5, 5, 5, 5, 5, 5, 5, 5, 5] 1 "ses").confidenceIntervals.getD 0
        ⟨0, 0, 0⟩).lower) :=
  ⟨Nat.zero_lt_one, fwc_interval_formula id _ 1 "ses" 0 Nat.zero_lt_one⟩

/-! ## Claim C4: interval-width monotonicity -/

set_option maxRecDepth 100000 in
set_option maxHeartbeats 1000000 in
/-- Counterexample to claim C4 (that the full interval width `upper - lower`
is non-decreasing in the step index): on the series `[4,10,...]` with
`steps = 9` and model `"arima"`, the width at step index 8 is smaller than
at step index 3 (the step-3 lower bound is clamped at 0 while its forecast
is positive; the step-8 forecast is 0).  The square-root routine is
consulted only at the perfect squares `variance = 9`, `3+1 = 4` and
`8+1 = 9` in these two components, where `ratSqrt` returns the exact values
`3`, `2`, `3` that `Math.sqrt` also returns. -/
theorem ciWidth_not_monotone_cx :
    3 < 8 ∧
    variance [4, 10, 4, 10, 4, 10, 4, 10, 4, 10] = 9 ∧
    ratSqrt 9 = 3 ∧ ratSqrt 4 = 2 ∧
    ((forecastWithConfidence ratSqrt [4, 10, 4, 10, 4, 10, 4, 10, 4, 10] 9
          "arima").confidenceIntervals.getD 8 ⟨0, 0, 0⟩).upper -
      ((forecastWithConfidence ratSqrt [4, 10, 4, 10, 4, 10, 4, 10, 4, 10] 9
          "arima").confidenceIntervals.getD 8 ⟨0, 0, 0⟩).lower <
    ((forecastWithConfidence ratSqrt [4, 10, 4, 10, 4, 10, 4, 10, 4, 10] 9
          "arima").confidenceIntervals.getD 3 ⟨0, 0, 0⟩).upper -
      ((forecastWithConfidence ratSqrt [4, 10, 4, 10, 4, 10, 4, 10, 4, 10] 9
          "arima").confidenceIntervals.getD 3 ⟨0, 0, 0⟩).lower :=
  of_decide_eq_true (by with_unfolding_all rfl)

/-- Claim C4 as amended: for a fixed series and model choice the *upper*
half-width `upper - forecast` is non-decreasing in the step index (given
that the square-root routine is monotone on nonnegative inputs and
nonnegative at the variance, as the real square root is); the full width
`upper - lower` can decrease when the clamp of the lower bound at 0 is
active, as the counterexample shows. -/
theorem ciHalfWidth_monotone (sq : ℚ → ℚ) (data : List ℚ) (steps : ℕ)
    (model : String) (i j : ℕ) (hij : i ≤ j) (hj : j < steps)
    (hmono : ∀ a b : ℚ, 0 ≤ a → a ≤ b → sq a ≤ sq b)
    (hnn : 0 ≤ sq (variance data)) :
    ((forecastWithConfidence sq data steps model).confidenceIntervals.getD i
        ⟨0, 0, 0⟩).upper -
      ((forecastWithConfidence sq data steps model).confidenceIntervals.getD i
        ⟨0, 0, 0⟩).forecast ≤
    ((forecastWithConfidence sq data steps model).confidenceIntervals.getD j
        ⟨0, 0, 0⟩).upper -
      ((forecastWithConfidence sq data steps model).confidenceIntervals.getD j
        ⟨0, 0, 0⟩).forecast := by
  have hlen : (dispatchPredictions data steps (resolveModel data model)).length = steps :=
    dispatchPredictions_length data steps (resolveModel data model)
  rw [fwc_cis_eq, ciList_getD _ _ 0 i (by omega), ciList_getD _ _ 0 j (by omega),
    Nat.zero_add, Nat.zero_add]
  simp only [add_sub_cancel_left]
  apply mul_le_mul_of_nonneg_left
  · exact hmono _ _ (by positivity) (add_le_add_right (Nat.cast_le.mpr hij) 1)
  · exact mul_nonneg (by norm_num) hnn

theorem ciHalfWidth_monotone_witness :
    (0 : ℕ) ≤ 1 ∧ 1 < 2 ∧
    ((forecastWithConfidence id [5, 5, 5, 5, 5, 5, 5, 5, 5, 5] 2 "ses").confidenceIntervals.getD 0
        ⟨0, 0, 0⟩).upper -
      ((forecastWithConfidence id [5, 5, 5, 5, 5, 5, 5, 5, 5, 5] 2 "ses").confidenceIntervals.getD 0
        ⟨0, 0, 0⟩).forecast ≤
    ((forecastWithConfidence id [5, 5, 5, 5, 5, 5, 5, 5, 5, 5] 2 "ses").confidenceIntervals.getD 1
        ⟨0, 0, 0⟩).upper -
      ((forecastWithConfidence id [5, 5, 5, 5, 5, 5, 5, 5, 5, 5] 2 "ses").confidenceIntervals.getD 1
        ⟨0, 0, 0⟩).forecast :=
  ⟨Nat.zero_le 1, Nat.one_lt_two,
   ciHalfWidth_monotone id [5, 5, 5, 5, 5, 5, 5, 5, 5, 5] 2 "ses" 0 1
     (Nat.zero_le 1) Nat.one_lt_two (fun a b _ h => h)
     (of_decide_eq_true (by with_unfolding_all rfl))⟩

/-! ## Claim C10: unrecognised model names -/

/-- Claim C10: for every model argument other than `"auto"`, `"arima"`,
`"sarima"` and `"ses"` (including names outside the documented set),
`forecastWithConfidence` dispatches to the trailing-7-point moving average,
repeating its single aggregate value for every step, and returns the
argument upper-cased as the model tag; the function is total, so no error is
raised. -/
theorem fwc_unknown_model (sq : ℚ → ℚ) (data : List ℚ) (steps : ℕ)
    (model : String) (h1 : model ≠ "auto") (h2 : model ≠ "arima")
    (h3 : model ≠ "sarima") (h4 : model ≠ "ses") :
    (forecastWithConfidence sq data steps model).model = model.toUpper ∧
    (forecastWithConfidence sq data steps model).predictions =
      List.replicate steps (movingAverage data 7) := by
  have hres : resolveModel data model = model := by
    unfold resolveModel
    rw [if_neg h1]
  constructor
  · rw [fwc_model_eq, hres]
  · rw [fwc_predictions_eq, hres]
    unfold dispatchPredictions
    rw [if_neg h2, if_neg h3, if_neg h4]

theorem fwc_unknown_model_witness :
    (forecastWithConfidence id [1, 2, 3] 2 "lstm").model = "lstm".toUpper ∧
    (forecastWithConfidence id [1, 2, 3] 2 "lstm").predictions =
      List.replicate 2 (movingAverage [1, 2, 3] 7) :=
  fwc_unknown_model id [1, 2, 3] 2 "lstm" (by decide) (by decide) (by decide) (by decide)

end SW

